import Mathlib

/-!
Shallow embedding of `cherab/tools/observers/spectroscopic.py`: the
broadcast-configuration, pipeline-attachment, lookup and aggregation core of
the 0D spectroscopic observer groups.

Python exceptions are modelled by an inductive `Exc` recording both the
structured payload (requested key, counts, sizes) and, via `Exc.pyClass`, the
Python exception class (`IndexError` / `ValueError` / `TypeError`) — the class
matters because `Observer0DGroup._get_same_pipelines` catches exactly
`(ValueError, IndexError)`.  Fallible operations return `Except Exc _`.
Python floats that are only stored and compared (wavelengths, coordinates) are
modelled by `ℚ`; pipeline filter functions are opaque tokens (only identity
matters to the code under study).
-/

namespace Spectroscopic

/-- The Python class of a raised exception. -/
inductive PyClass where
  | indexError
  | valueError
  | typeError
deriving DecidableEq, Repr

/-- A lookup key, as Python sees it: `isinstance(item, int)`,
`isinstance(item, str)`, or anything else. -/
inductive PKey where
  | int (i : Int)
  | str (s : String)
  | other
deriving DecidableEq, Repr

/-- The concrete pipeline classes of
`raysect.optical.observer`; `unsupported` stands for any class outside the
four supported ones (`connect_pipelines` rejects it). -/
inductive PipeClass where
  | spectralRadiance
  | spectralPower
  | radiance
  | power
  | unsupported
deriving DecidableEq, Repr

/-- The exceptions raised by the code under study, with their payloads. -/
inductive Exc where
  /-- `IndexError("Pipeline number {} not available … with only {} …")` from
  the `int` branch of `get_pipeline` / `__getitem__`. -/
  | indexOutOfRange (item : Int) (size : Nat)
  /-- `ValueError("… '{}' was not found …")` from the `str` branch. -/
  | nameNotFound (name : String)
  /-- `ValueError("Found {} … with name {} …")` from the `str` branch. -/
  | nameAmbiguous (count : Nat) (name : String)
  /-- `TypeError("… key must be of type int or str.")`. -/
  | badKeyType
  /-- `ValueError("The length of '{}' ({}) mismatches the number of
  sight-lines ({}).")` from a broadcast property setter. -/
  | lengthMismatch (prop : String) (got : Nat) (size : Nat)
  /-- `IndexError("Replacement index 1 out of range for positional args
  tuple")` raised by `str.format` itself in `_get_same_pipelines`: the source
  passes the single tuple `(item, self.__class__.__name__)` to a template with
  two `{}` placeholders, so formatting fails before the intended `ValueError`
  is constructed. -/
  | formatIndexError
  /-- `ValueError("Pipelines {} have different types …")` from
  `_get_same_pipelines`. -/
  | differentTypes (item : PKey)
  /-- `ValueError("Unsupported pipeline class: …")` from `connect_pipelines`. -/
  | unsupportedPipelineClass
  /-- The `ValueError("Pipeline {} was not found for any sight-line …")` that
  `_get_same_pipelines` tries to raise in its zero-match branch; unreachable
  in the source because the message formatting itself raises first. -/
  | notFoundAnySightLine (item : PKey)
deriving DecidableEq, Repr

/-- The Python exception class of each modelled exception. -/
def Exc.pyClass : Exc → PyClass
  | .indexOutOfRange _ _ => .indexError
  | .nameNotFound _ => .valueError
  | .nameAmbiguous _ _ => .valueError
  | .badKeyType => .typeError
  | .lengthMismatch _ _ _ => .valueError
  | .formatIndexError => .indexError
  | .differentTypes _ => .valueError
  | .unsupportedPipelineClass => .valueError
  | .notFoundAnySightLine _ => .valueError

/-- One pipeline attached to a sensor.  `cls` is the concrete Python class
(`type(pipeline)`), `name` is `None` or a string, `filter` is an opaque token
for the optional `SpectralFunction`. -/
structure Pipeline where
  cls : PipeClass
  name : Option String
  accumulate : Bool
  display_progress : Bool
  filter : Option Nat
deriving DecidableEq, Repr

/-- A 0D spectroscopic observer (sight line / fibre optic) as far as the
lookup, attachment and aggregation code reads it: its `name` and its ordered
`pipelines` list. -/
structure SightLine where
  name : Option String
  pipelines : List Pipeline
deriving DecidableEq, Repr

/-- The effective position of Python subscripting `seq[i]`: negative indices
count from the end of the sequence. -/
def pyIndex (len : Nat) (i : Int) : Int :=
  if i < 0 then i + len else i

/-- Python sequence subscripting `seq[i]` with an `int` index: negative
indices count from the end; only indices outside `[-len, len)` raise
`IndexError`. -/
def pyGet {α : Type} (xs : List α) (i : Int) : Option α :=
  if h : 0 ≤ pyIndex xs.length i ∧ pyIndex xs.length i < xs.length then
    some (xs.get ⟨(pyIndex xs.length i).toNat, by omega⟩)
  else
    none

/-- The shared name/index lookup algorithm of `Observer0DGroup.__getitem__`
and `_SpectroscopicObserver0DBase.get_pipeline`, parameterised by the element
naming function.  `int` keys index the sequence (`try … except IndexError`);
`str` keys collect all elements whose `name` equals the key; any other key
raises `TypeError`. -/
def resolveSeq {α : Type} (name : α → Option String) (seq : List α) :
    PKey → Except Exc α
  | .int i =>
    match pyGet seq i with
    | some x => .ok x
    | none => .error (.indexOutOfRange i seq.length)
  | .str s =>
    match seq.filter (fun x => name x = some s) with
    | [] => .error (.nameNotFound s)
    | [x] => .ok x
    | l => .error (.nameAmbiguous l.length s)
  | .other => .error .badKeyType

/-- `_SpectroscopicObserver0DBase.get_pipeline(item)`. -/
def get_pipeline (s : SightLine) (item : PKey) : Except Exc Pipeline :=
  resolveSeq Pipeline.name s.pipelines item

/-- `Observer0DGroup.__getitem__(item)` over the group's sight-line tuple. -/
def groupGetItem (sights : List SightLine) (item : PKey) : Except Exc SightLine :=
  resolveSeq SightLine.name sights item

/-! ## Broadcast property setters (`Observer0DGroup`) -/

/-- A value assigned to a broadcast property: either one scalar for every
member, or a sequence (`list` / `tuple` / `ndarray`) of per-member values. -/
inductive Broadcast (β : Type) where
  | scalar (v : β)
  | seq (vs : List β)
deriving DecidableEq, Repr

/-- The uniform body of every `Observer0DGroup` broadcast property setter
(`pixel_samples`, `min_wavelength`, `max_wavelength`, `spectral_bins`,
`accumulate`, …), parameterised by the per-member assignment `set1`: a
sequence value must have exactly the group's length and is applied
member-wise with `zip`; anything else is applied identically to every
member. -/
def broadcastSet {α β : Type} (set1 : α → β → α) (prop : String)
    (sights : List α) (value : Broadcast β) : Except Exc (List α) :=
  match value with
  | .seq vs =>
    if vs.length = sights.length then
      .ok (List.zipWith set1 sights vs)
    else
      .error (.lengthMismatch prop vs.length sights.length)
  | .scalar v => .ok (sights.map (fun s => set1 s v))

/-- `Observer0DGroup.pixel_samples = value` over the members' current
`pixel_samples` values. -/
def setPixelSamples (cur : List Nat) (value : Broadcast Nat) :
    Except Exc (List Nat) :=
  broadcastSet (fun _ v => v) "pixel_samples" cur value

/-- `Observer0DGroup.min_wavelength = value` over the members' current
`min_wavelength` values (floats modelled by `ℚ`). -/
def setMinWavelength (cur : List ℚ) (value : Broadcast ℚ) :
    Except Exc (List ℚ) :=
  broadcastSet (fun _ v => v) "min_wavelength" cur value

/-- `Observer0DGroup.spectral_bins = value` over the members' current
`spectral_bins` values. -/
def setSpectralBins (cur : List Nat) (value : Broadcast Nat) :
    Except Exc (List Nat) :=
  broadcastSet (fun _ v => v) "spectral_bins" cur value

/-- `isinstance(pipeline, (PowerPipeline0D, SpectralPowerPipeline0D))`:
in raysect, `RadiancePipeline0D` subclasses `PowerPipeline0D` and
`SpectralRadiancePipeline0D` subclasses `SpectralPowerPipeline0D`, so all
four supported classes satisfy this check. -/
def isPowerOrSpectralPower : PipeClass → Bool
  | .spectralRadiance => true
  | .spectralPower => true
  | .radiance => true
  | .power => true
  | .unsupported => false

/-- The `_SpectroscopicObserver0DBase.accumulate` setter: assigns the flag on
every pipeline that is a `PowerPipeline0D` or `SpectralPowerPipeline0D`. -/
def sightSetAccumulate (s : SightLine) (v : Bool) : SightLine :=
  { s with
    pipelines := s.pipelines.map (fun p =>
      if isPowerOrSpectralPower p.cls then { p with accumulate := v } else p) }

/-- `Observer0DGroup.accumulate = value` over the group's sight lines. -/
def setAccumulate (sights : List SightLine) (value : Broadcast Bool) :
    Except Exc (List SightLine) :=
  broadcastSet sightSetAccumulate "accumulate" sights value

/-! ## Pipeline attachment (`connect_pipelines`) -/

/-- One entry of the `properties` argument of `connect_pipelines`:
`(class, name, filter)`. -/
structure PipeSpec where
  cls : PipeClass
  name : Option String
  filter : Option Nat
deriving DecidableEq, Repr

/-- The construction loop of `connect_pipelines`: spectral classes are
instantiated as `PipelineClass(accumulate=False, display_progress=False,
name=name)` — the supplied filter is ignored; scalar classes as
`PipelineClass(filter=filter_func, accumulate=False, name=name)`; any other
class raises `ValueError` at that entry, before the sensor is touched. -/
def buildPipelines : List PipeSpec → Except Exc (List Pipeline)
  | [] => .ok []
  | spec :: rest =>
    match spec.cls with
    | .spectralRadiance =>
      (buildPipelines rest).map
        (Pipeline.mk .spectralRadiance spec.name false false none :: ·)
    | .spectralPower =>
      (buildPipelines rest).map
        (Pipeline.mk .spectralPower spec.name false false none :: ·)
    | .radiance =>
      (buildPipelines rest).map
        (Pipeline.mk .radiance spec.name false false spec.filter :: ·)
    | .power =>
      (buildPipelines rest).map
        (Pipeline.mk .power spec.name false false spec.filter :: ·)
    | .unsupported => .error .unsupportedPipelineClass

/-- `_SpectroscopicObserver0DBase.connect_pipelines(properties)` as a state
transformer on the sensor: the whole `pipelines` list is built first and only
then assigned wholesale (`self.pipelines = pipelines`); if building raises,
the sensor is returned unmodified together with the exception. -/
def connect_pipelines (s : SightLine) (specs : List PipeSpec) :
    SightLine × Option Exc :=
  match buildPipelines specs with
  | .ok ps => ({ s with pipelines := ps }, none)
  | .error e => (s, some e)

/-! ## Aggregation (`Observer0DGroup._get_same_pipelines`) -/

/-- The collection loop of `_get_same_pipelines`: for each sight line,
`try: pipelines.append(sight_line.get_pipeline(item)) except (ValueError,
IndexError): continue` — so `ValueError` and `IndexError` are skipped, while
any other exception (here: `TypeError`) propagates immediately. -/
def collectPipelines (item : PKey) :
    List SightLine → Except Exc (List Pipeline × List SightLine)
  | [] => .ok ([], [])
  | s :: rest =>
    match get_pipeline s item with
    | .ok p =>
      (collectPipelines item rest).map (fun r => (p :: r.1, s :: r.2))
    | .error e =>
      if e.pyClass = .valueError ∨ e.pyClass = .indexError then
        collectPipelines item rest
      else
        .error e

/-- `str.format` applied to a template with two `{}` placeholders: raises
`IndexError` unless at least two positional arguments are supplied. -/
def pyFormatTwo (args : List String) : Except Exc String :=
  match args with
  | a :: b :: _ => .ok (a ++ b)
  | _ => .error .formatIndexError

/-- `Observer0DGroup._get_same_pipelines(item)`.  In the zero-match branch
the source runs `"Pipeline {} was not found for any sight-line in this
{}.".format((item, self.__class__.__name__))` — a single positional argument
(one tuple) for two placeholders — so `str.format` itself raises
`IndexError` and the intended `ValueError` is never constructed. -/
def get_same_pipelines (sights : List SightLine) (item : PKey) :
    Except Exc (List Pipeline × List SightLine) :=
  match collectPipelines item sights with
  | .error e => .error e
  | .ok (ps, ss) =>
    if ps.length = 0 then
      match pyFormatTwo [reprStr (item, "Observer0DGroup")] with
      | .error e => .error e
      | .ok _msg => .error (.notFoundAnySightLine item)
    else if ((ps.map Pipeline.cls).dedup).length > 1 then
      .error (.differentTypes item)
    else
      .ok (ps, ss)

/-! ## Chart titles (`plot_total_signal` / `plot_spectra`) -/

/-- Python truthiness of `pipeline.name and len(pipeline.name)`: false for
`None` and for the empty string. -/
def truthyName : Option String → Bool
  | none => false
  | some s => s ≠ ""

/-- `str(x)` for an optional string (`None` prints as `"None"` inside
`"{}: {}".format(...)`). -/
def pyStrOpt : Option String → String
  | none => "None"
  | some s => s

/-- The title logic shared verbatim by `plot_total_signal` and
`plot_spectra`: for an `int` item, if `len(set(p.name for p in pipelines))
== 1 and pipelines[0].name and len(pipelines[0].name)` the shared name is
used, otherwise the generic `"pipeline {item}"` label; a `str` item is used
verbatim; any other item sets no title. -/
def plotTitle (gname : Option String) (item : PKey) (ps : List Pipeline) :
    Option String :=
  match item with
  | .int i =>
    if ((ps.map Pipeline.name).dedup).length = 1 ∧
        truthyName (ps.head?.bind Pipeline.name) = true then
      some (pyStrOpt gname ++ ": " ++ pyStrOpt (ps.head?.bind Pipeline.name))
    else
      some (pyStrOpt gname ++ ": pipeline " ++ toString i)
  | .str s => some (pyStrOpt gname ++ ": " ++ s)
  | .other => none

/-- Modelled from the spec (for refinement comparison with `plotTitle`): the
title rule exactly as the specification words it — an `int` item uses the
shared name when every matched pipeline carries one identical non-empty
name, otherwise the generic label; a `str` item is used verbatim. -/
def claimedTitle (gname : Option String) (item : PKey) (ps : List Pipeline) :
    Option String :=
  match item with
  | .int i =>
    match ps with
    | [] => none
    | p :: rest =>
      match p.name with
      | some s =>
        if s ≠ "" ∧ rest.all (fun q => q.name = some s) then
          some (pyStrOpt gname ++ ": " ++ s)
        else
          some (pyStrOpt gname ++ ": pipeline " ++ toString i)
      | none => some (pyStrOpt gname ++ ": pipeline " ++ toString i)
  | .str s => some (pyStrOpt gname ++ ": " ++ s)
  | .other => none

/-! ## Sensor placement (`_SpectroscopicObserver0DBase.origin` /
`.direction` setters) -/

/-- A 3D vector (or point) over `ℚ`, standing for raysect's
`Vector3D` / `Point3D`. -/
structure Vec3 where
  x : ℚ
  y : ℚ
  z : ℚ
deriving DecidableEq, Repr

/-- Vector cross product. -/
def cross (a b : Vec3) : Vec3 :=
  ⟨a.y * b.z - a.z * b.y, a.z * b.x - a.x * b.z, a.x * b.y - a.y * b.x⟩

/-- Vector dot product. -/
def dot (a b : Vec3) : ℚ :=
  a.x * b.x + a.y * b.y + a.z * b.z

/-- The up-reference choice both setters make: `Vector3D(0, 0, 1)` unless the
direction equals the canonical up axis exactly (`x == 0 and y == 0 and
z == 1`), in which case `Vector3D(1, 0, 0)`. -/
def upFor (d : Vec3) : Vec3 :=
  if d.x ≠ 0 ∨ d.y ≠ 0 ∨ d.z ≠ 1 then ⟨0, 0, 1⟩ else ⟨1, 0, 0⟩

/-- The placement transform `translate(origin.x, origin.y, origin.z) *
rotate_basis(direction, up)`, recorded by the arguments handed to the two
external raysect constructors. -/
structure PlacementTransform where
  translation : Vec3
  forward : Vec3
  up : Vec3
deriving DecidableEq, Repr

/-- The placement state of a `_SpectroscopicObserver0DBase`. -/
structure Observer0D where
  origin : Vec3
  direction : Vec3
  transform : PlacementTransform
deriving DecidableEq, Repr

/-- The `origin` setter: stores the new origin and recomputes the transform
from it and the *current* direction (`self._direction`). -/
def setOrigin (o : Observer0D) (value : Vec3) : Observer0D :=
  { o with
    origin := value
    transform := ⟨value, o.direction, upFor o.direction⟩ }

/-- The `direction` setter: stores the new direction and recomputes the
transform from it and the *current* origin (`self._origin`). -/
def setDirection (o : Observer0D) (value : Vec3) : Observer0D :=
  { o with
    direction := value
    transform := ⟨o.origin, value, upFor value⟩ }

/-- Non-degeneracy of the look-basis `rotate_basis(forward, up)`: the cross
product of the two axes is not the zero vector (a zero cross product leaves
the basis undefined). -/
def basisNondegenerate (forward up : Vec3) : Prop :=
  cross forward up ≠ ⟨0, 0, 0⟩

instance (f u : Vec3) : Decidable (basisNondegenerate f u) := by
  unfold basisNondegenerate; infer_instance

/-! ## Concrete fixtures for witnesses and counterexamples -/

/-- A spectral pipeline named "Halpha". -/
def pipeHa : Pipeline := ⟨.spectralRadiance, some "Halpha", false, false, none⟩

/-- A scalar pipeline named "Hbeta". -/
def pipeHb : Pipeline := ⟨.power, some "Hbeta", false, false, some 1⟩

/-- A sensor carrying `pipeHa` then `pipeHb`. -/
def sensorAB : SightLine := ⟨some "A", [pipeHa, pipeHb]⟩

/-- Two distinct pipelines both named "X". -/
def pipeX1 : Pipeline := ⟨.spectralRadiance, some "X", false, false, none⟩

/-- Second pipeline named "X", distinguishable from `pipeX1`. -/
def pipeX2 : Pipeline := ⟨.spectralRadiance, some "X", true, false, none⟩

/-- A third pipeline named "X" on another sensor. -/
def pipeX3 : Pipeline := ⟨.spectralRadiance, some "X", false, true, none⟩

/-- A sensor whose name lookup for "X" is ambiguous. -/
def sensorAmb : SightLine := ⟨some "amb", [pipeX1, pipeX2]⟩

/-- A sensor with exactly one pipeline named "X". -/
def sensorOne : SightLine := ⟨some "one", [pipeX3]⟩

/-- A freshly constructed observer (`_origin = Point3D(0, 0, 0)`,
`_direction = Vector3D(1, 0, 0)`). -/
def obs0 : Observer0D :=
  ⟨⟨0, 0, 0⟩, ⟨1, 0, 0⟩, ⟨⟨0, 0, 0⟩, ⟨1, 0, 0⟩, ⟨0, 0, 1⟩⟩⟩

/-! ## Helper lemmas -/

/-- `pyGet` at an in-range effective index. -/
lemma pyGet_eq_some {α : Type} (xs : List α) (i : Int)
    (h0 : 0 ≤ pyIndex xs.length i) (h1 : pyIndex xs.length i < xs.length) :
    pyGet xs i = some (xs.get ⟨(pyIndex xs.length i).toNat, by omega⟩) := by
  unfold pyGet
  rw [dif_pos ⟨h0, h1⟩]

/-- `pyGet` at an out-of-range effective index. -/
lemma pyGet_eq_none {α : Type} (xs : List α) (i : Int)
    (h : ¬(0 ≤ pyIndex xs.length i ∧ pyIndex xs.length i < xs.length)) :
    pyGet xs i = none := by
  unfold pyGet
  rw [dif_neg h]

/-- Every exception produced by `resolveSeq` on an `int` or `str` key is a
`ValueError` or an `IndexError` (never a `TypeError`). -/
lemma resolveSeq_error_class {α : Type} (name : α → Option String)
    (seq : List α) (item : PKey) (e : Exc) (hi : item ≠ .other)
    (he : resolveSeq name seq item = .error e) :
    e.pyClass = .valueError ∨ e.pyClass = .indexError := by
  cases item with
  | int i =>
    rw [resolveSeq] at he
    cases hg : pyGet seq i with
    | some x => rw [hg] at he; exact absurd he (by simp)
    | none =>
      rw [hg] at he
      have : e = .indexOutOfRange i seq.length := by
        simpa using he.symm
      subst this
      exact Or.inr rfl
  | str s =>
    rw [resolveSeq] at he
    cases hf : seq.filter (fun x => name x = some s) with
    | nil =>
      rw [hf] at he
      have : e = .nameNotFound s := by simpa using he.symm
      subst this
      exact Or.inl rfl
    | cons a t =>
      cases t with
      | nil => rw [hf] at he; exact absurd he (by simp)
      | cons b t2 =>
        rw [hf] at he
        have : e = .nameAmbiguous (a :: b :: t2).length s := by
          simpa using he.symm
        subst this
        exact Or.inl rfl
  | other => exact absurd rfl hi

/-- On an `int` or `str` item the collection loop of `_get_same_pipelines`
never propagates an exception: it returns exactly the pipelines (and owning
sensors) whose per-sensor resolution succeeded, in group order. -/
lemma collectPipelines_eq (item : PKey) (hi : item ≠ .other)
    (g : List SightLine) :
    collectPipelines item g =
      .ok (g.filterMap (fun s => (get_pipeline s item).toOption),
           g.filter (fun s => ((get_pipeline s item).toOption).isSome)) := by
  induction g with
  | nil => rfl
  | cons s rest ih =>
    rw [collectPipelines]
    cases hg : get_pipeline s item with
    | ok p =>
      rw [ih]
      simp [List.filterMap_cons, List.filter_cons, hg, Except.toOption, Except.map]
    | error e =>
      have hc := resolveSeq_error_class Pipeline.name s.pipelines item e hi hg
      simp [List.filterMap_cons, List.filter_cons, hg, Except.toOption, ih, hc]

/-- `filterMap` over `f` and `filter` over `isSome ∘ f` keep the same
positions, hence produce lists of equal length. -/
lemma length_filterMap_eq_filter {α β : Type} (f : α → Option β)
    (l : List α) :
    (l.filterMap f).length = (l.filter (fun a => (f a).isSome)).length := by
  induction l with
  | nil => rfl
  | cons a l ih =>
    cases h : f a with
    | none => simp [List.filterMap_cons, List.filter_cons, h, ih]
    | some b => simp [List.filterMap_cons, List.filter_cons, h, ih]

/-- The pipeline that one supported entry of `connect_pipelines` constructs. -/
def specToPipeline (spec : PipeSpec) : Pipeline :=
  match spec.cls with
  | .spectralRadiance => ⟨.spectralRadiance, spec.name, false, false, none⟩
  | .spectralPower => ⟨.spectralPower, spec.name, false, false, none⟩
  | .radiance => ⟨.radiance, spec.name, false, false, spec.filter⟩
  | .power => ⟨.power, spec.name, false, false, spec.filter⟩
  | .unsupported => ⟨.unsupported, spec.name, false, false, none⟩

/-- When every entry is supported, the construction loop succeeds and builds
exactly the per-entry pipelines, in order. -/
lemma buildPipelines_ok (specs : List PipeSpec)
    (h : ∀ spec ∈ specs, spec.cls ≠ PipeClass.unsupported) :
    buildPipelines specs = .ok (specs.map specToPipeline) := by
  induction specs with
  | nil => rfl
  | cons spec rest ih =>
    have hs : spec.cls ≠ PipeClass.unsupported := h spec (by simp)
    have hr := ih (fun q hq => h q (by simp [hq]))
    rw [buildPipelines]
    cases hc : spec.cls with
    | spectralRadiance =>
      simp [hr, Except.map, List.map_cons, specToPipeline, hc]
    | spectralPower =>
      simp [hr, Except.map, List.map_cons, specToPipeline, hc]
    | radiance =>
      simp [hr, Except.map, List.map_cons, specToPipeline, hc]
    | power =>
      simp [hr, Except.map, List.map_cons, specToPipeline, hc]
    | unsupported => exact absurd hc hs

/-- When some entry is unsupported, the construction loop raises the
`ValueError` for the first such entry. -/
lemma buildPipelines_error (specs : List PipeSpec)
    (h : ∃ spec ∈ specs, spec.cls = PipeClass.unsupported) :
    buildPipelines specs = .error .unsupportedPipelineClass := by
  induction specs with
  | nil => simp at h
  | cons spec rest ih =>
    rw [buildPipelines]
    cases hc : spec.cls with
    | spectralRadiance =>
      have hrest : ∃ q ∈ rest, q.cls = PipeClass.unsupported := by
        rcases h with ⟨q, hq, hqc⟩
        rcases List.mem_cons.mp hq with rfl | hmem
        · exact absurd hqc (by rw [hc]; intro hco; cases hco)
        · exact ⟨q, hmem, hqc⟩
      simp [ih hrest, Except.map]
    | spectralPower =>
      have hrest : ∃ q ∈ rest, q.cls = PipeClass.unsupported := by
        rcases h with ⟨q, hq, hqc⟩
        rcases List.mem_cons.mp hq with rfl | hmem
        · exact absurd hqc (by rw [hc]; intro hco; cases hco)
        · exact ⟨q, hmem, hqc⟩
      simp [ih hrest, Except.map]
    | radiance =>
      have hrest : ∃ q ∈ rest, q.cls = PipeClass.unsupported := by
        rcases h with ⟨q, hq, hqc⟩
        rcases List.mem_cons.mp hq with rfl | hmem
        · exact absurd hqc (by rw [hc]; intro hco; cases hco)
        · exact ⟨q, hmem, hqc⟩
      simp [ih hrest, Except.map]
    | power =>
      have hrest : ∃ q ∈ rest, q.cls = PipeClass.unsupported := by
        rcases h with ⟨q, hq, hqc⟩
        rcases List.mem_cons.mp hq with rfl | hmem
        · exact absurd hqc (by rw [hc]; intro hco; cases hco)
        · exact ⟨q, hmem, hqc⟩
      simp [ih hrest, Except.map]
    | unsupported => rfl

/-- A nonempty list maps to a one-element deduplication exactly when all its
elements coincide. -/
lemma dedup_length_one_iff {α : Type} [DecidableEq α] {l : List α}
    (hl : l ≠ []) :
    l.dedup.length = 1 ↔ ∃ c, ∀ b ∈ l, b = c := by
  constructor
  · intro h
    obtain ⟨c, hc⟩ := List.length_eq_one.mp h
    refine ⟨c, fun b hb => ?_⟩
    have hmem : b ∈ l.dedup := List.mem_dedup.mpr hb
    rw [hc] at hmem
    simpa using hmem
  · rintro ⟨c, hc⟩
    have hne : l.dedup ≠ [] := by
      intro hd
      exact hl ((List.dedup_eq_nil l).mp hd)
    have hnd : l.dedup.Nodup := l.nodup_dedup
    have hdl : ∀ b ∈ l.dedup, b = c := fun b hb =>
      hc b (List.mem_dedup.mp hb)
    cases hd : l.dedup with
    | nil => exact absurd hd hne
    | cons a t =>
      cases ht : t with
      | nil => simp [hd]
      | cons b t2 =>
        rw [hd, ht] at hnd hdl
        have ha : a = c := hdl a (by simp)
        have hb : b = c := hdl b (by simp)
        rw [List.nodup_cons] at hnd
        exact absurd (by simp [ha, hb]) hnd.1

/-! ## Claim theorems -/

/-- C1: for every group (of any member type) and every broadcast property
setter, assigning a scalar sets the value identically on all members;
assigning a sequence of the group's length sets member `i` to element `i`;
assigning a sequence of any other length raises the length-mismatch
`ValueError` and leaves every member unchanged (the setter returns an
exception instead of a new member list). -/
theorem broadcast_property_correct {α β : Type} (set1 : α → β → α)
    (prop : String) (g : List α) :
    (∀ v : β, broadcastSet set1 prop g (.scalar v) =
        .ok (g.map (fun s => set1 s v))) ∧
    (∀ vs : List β, vs.length = g.length →
        broadcastSet set1 prop g (.seq vs) = .ok (List.zipWith set1 g vs) ∧
        ∀ (i : Nat) (s : α) (v : β), g[i]? = some s → vs[i]? = some v →
          (List.zipWith set1 g vs)[i]? = some (set1 s v)) ∧
    (∀ vs : List β, vs.length ≠ g.length →
        broadcastSet set1 prop g (.seq vs) =
          .error (.lengthMismatch prop vs.length g.length)) := by
  refine ⟨fun v => rfl, fun vs hlen => ⟨?_, ?_⟩, fun vs hlen => ?_⟩
  · rw [broadcastSet, if_pos hlen]
  · intro i s v hs hv
    rw [List.getElem?_zipWith, hs, hv]
  · rw [broadcastSet, if_neg hlen]

/-- Witness for C1 at the spec's concrete scenarios: a group of two members
with `pixel_samples = 500` (scalar), `= [100, 200]` (matching sequence) and
`= [100, 200, 300]` (mismatched sequence). -/
theorem broadcast_property_correct_witness :
    setPixelSamples [10, 20] (.scalar 500) = .ok [500, 500] ∧
    setPixelSamples [10, 20] (.seq [100, 200]) = .ok [100, 200] ∧
    setPixelSamples [10, 20] (.seq [100, 200, 300]) =
      .error (.lengthMismatch "pixel_samples" 3 2) := by
  refine ⟨?_, ?_, ?_⟩
  · exact (broadcast_property_correct (fun _ v => v) "pixel_samples"
      [10, 20]).1 500
  · exact ((broadcast_property_correct (fun _ v => v) "pixel_samples"
      [10, 20]).2.1 [100, 200] (by decide)).1
  · exact (broadcast_property_correct (fun _ v => v) "pixel_samples"
      [10, 20]).2.2 [100, 200, 300] (by decide)

/-- C2 counterexample: the claim says every negative integer key raises
`LookupNotFound`, but Python subscripting counts negative indices from the
end: `get_pipeline(-1)` on a sensor with two pipelines returns the second
pipeline instead of raising. -/
theorem resolve_negative_index_counterexample :
    get_pipeline sensorAB (.int (-1)) = .ok pipeHb := by
  rfl

/-- C2 (amended): an integer key `i` with `0 ≤ i < len` returns element `i`;
a negative `i` with `-len ≤ i < 0` returns element `len + i` (Python
negative indexing) instead of raising; only `i < -len` or `i ≥ len` raises
the `IndexError` naming the requested index and the collection size. -/
theorem resolve_int_amended {α : Type} (name : α → Option String)
    (seq : List α) (i : Int) :
    (∀ h : 0 ≤ i ∧ i < (seq.length : Int),
        resolveSeq name seq (.int i) = .ok (seq.get ⟨i.toNat, by omega⟩)) ∧
    (∀ h : -(seq.length : Int) ≤ i ∧ i < 0,
        resolveSeq name seq (.int i) =
          .ok (seq.get ⟨(i + seq.length).toNat, by omega⟩)) ∧
    (i < -(seq.length : Int) ∨ (seq.length : Int) ≤ i →
        resolveSeq name seq (.int i) =
          .error (.indexOutOfRange i seq.length)) := by
  refine ⟨fun h => ?_, fun h => ?_, fun h => ?_⟩
  · have hj : pyIndex seq.length i = i := by
      unfold pyIndex
      rw [if_neg (by omega)]
    have hp := pyGet_eq_some seq i (by rw [hj]; omega) (by rw [hj]; omega)
    simp only [resolveSeq, hp]
    exact congrArg Except.ok (congrArg seq.get (Fin.ext
      (show (pyIndex seq.length i).toNat = i.toNat by rw [hj])))
  · have hj : pyIndex seq.length i = i + seq.length := by
      unfold pyIndex
      rw [if_pos (by omega)]
    have hp := pyGet_eq_some seq i (by rw [hj]; omega) (by rw [hj]; omega)
    simp only [resolveSeq, hp]
    exact congrArg Except.ok (congrArg seq.get (Fin.ext
      (show (pyIndex seq.length i).toNat = (i + (seq.length : Int)).toNat by
        rw [hj])))
  · have hp := pyGet_eq_none seq i (by unfold pyIndex; split <;> omega)
    simp only [resolveSeq, hp]

/-- Witness for C2 (amended) on the concrete two-pipeline sensor: index 0
returns the first pipeline, index −2 wraps to the first pipeline, index 5 is
out of range. -/
theorem resolve_int_amended_witness :
    get_pipeline sensorAB (.int 0) = .ok pipeHa ∧
    get_pipeline sensorAB (.int (-2)) = .ok pipeHa ∧
    get_pipeline sensorAB (.int 5) = .error (.indexOutOfRange 5 2) := by
  refine ⟨?_, ?_, ?_⟩
  · exact (resolve_int_amended Pipeline.name sensorAB.pipelines 0).1
      ⟨by decide, by decide⟩
  · exact (resolve_int_amended Pipeline.name sensorAB.pipelines (-2)).2.1
      ⟨by decide, by decide⟩
  · exact (resolve_int_amended Pipeline.name sensorAB.pipelines 5).2.2
      (Or.inr (by decide))

/-- C6: a string key returns the unique element whose name equals it when
exactly one matches; raises the not-found `ValueError` when no element
matches; raises the ambiguity `ValueError` naming the match count when two
or more match; and a key that is neither an integer nor a string raises the
`TypeError`. -/
theorem resolve_str_spec {α : Type} (name : α → Option String)
    (seq : List α) (s : String) :
    (∀ x, seq.filter (fun a => name a = some s) = [x] →
        resolveSeq name seq (.str s) = .ok x) ∧
    (seq.filter (fun a => name a = some s) = [] →
        resolveSeq name seq (.str s) = .error (.nameNotFound s)) ∧
    (∀ l, seq.filter (fun a => name a = some s) = l → 2 ≤ l.length →
        resolveSeq name seq (.str s) =
          .error (.nameAmbiguous l.length s)) ∧
    resolveSeq name seq .other = .error .badKeyType := by
  refine ⟨fun x hx => ?_, fun h0 => ?_, fun l hl h2 => ?_, rfl⟩
  · simp only [resolveSeq, hx]
  · simp only [resolveSeq, h0]
  · cases l with
    | nil => simp at h2
    | cons a t =>
      cases t with
      | nil => simp at h2
      | cons b t2 => simp only [resolveSeq, hl]

/-- Witness for C6 on concrete sensors: the spec's scenario 4 ("Halpha"
resolves, "Hbeta" absent from `sensorOne` raises not-found), the ambiguous
sensor raises the two-match error, and a non-int/str key raises the type
error. -/
theorem resolve_str_spec_witness :
    get_pipeline sensorAB (.str "Halpha") = .ok pipeHa ∧
    get_pipeline sensorOne (.str "Hbeta") = .error (.nameNotFound "Hbeta") ∧
    get_pipeline sensorAmb (.str "X") = .error (.nameAmbiguous 2 "X") ∧
    get_pipeline sensorAB .other = .error .badKeyType := by
  refine ⟨?_, ?_, ?_, ?_⟩
  · exact (resolve_str_spec Pipeline.name sensorAB.pipelines "Halpha").1
      pipeHa (by decide)
  · exact (resolve_str_spec Pipeline.name sensorOne.pipelines "Hbeta").2.1
      (by decide)
  · exact (resolve_str_spec Pipeline.name sensorAmb.pipelines "X").2.2.1
      [pipeX1, pipeX2] (by decide) (by decide)
  · exact (resolve_str_spec Pipeline.name sensorAB.pipelines "arbitrary").2.2.2

/-- C3 counterexample: sensor `sensorAmb` carries two pipelines named "X", so
its per-sensor resolution raises the ambiguity `ValueError`; the claim says
this is surfaced to the caller, but `_get_same_pipelines` catches
`(ValueError, IndexError)` and silently skips the sensor, succeeding with
only the other sensor's pipeline. -/
theorem aggregate_ambiguous_skipped_counterexample :
    get_pipeline sensorAmb (.str "X") = .error (.nameAmbiguous 2 "X") ∧
    get_same_pipelines [sensorAmb, sensorOne] (.str "X") =
      .ok ([pipeX3], [sensorOne]) := by
  constructor
  · rfl
  · rfl

/-- C3 (amended): during aggregation a sensor is skipped (excluded from the
aggregate, no error) exactly when its per-sensor resolution raises either
`LookupNotFound` or `LookupAmbiguous` — both are `ValueError`/`IndexError`
and both are caught by the same handler, so an ambiguity is never surfaced;
only a key of invalid type, whose `TypeError` the handler does not catch,
propagates to the caller (shown here on the first sensor). -/
theorem aggregate_skip_condition (g : List SightLine) (item : PKey) :
    (item ≠ .other →
      collectPipelines item g =
        .ok (g.filterMap (fun s => (get_pipeline s item).toOption),
             g.filter (fun s => ((get_pipeline s item).toOption).isSome))) ∧
    (∀ s rest, g = s :: rest → item = .other →
      collectPipelines item g = .error .badKeyType) := by
  constructor
  · intro hi
    exact collectPipelines_eq item hi g
  · rintro s rest rfl rfl
    rfl

/-- Witness for C3 (amended) at the counterexample group: the ambiguous
sensor is dropped from the parallel lists, and an invalid key type
propagates as the `TypeError`. -/
theorem aggregate_skip_condition_witness :
    collectPipelines (.str "X") [sensorAmb, sensorOne] =
      .ok ([pipeX3], [sensorOne]) ∧
    collectPipelines .other [sensorAmb, sensorOne] =
      .error .badKeyType := by
  constructor
  · have h := (aggregate_skip_condition [sensorAmb, sensorOne] (.str "X")).1
      (by intro hc; cases hc)
    rw [h]
    rfl
  · exact (aggregate_skip_condition [sensorAmb, sensorOne] .other).2
      sensorAmb [sensorOne] rfl rfl

/-- C4 (code bug): with a group in which no sensor has a matching pipeline,
`_get_same_pipelines` attempts to raise the aggregation-empty `ValueError`,
but its message template has two placeholders and receives a single
positional argument (the tuple `(item, self.__class__.__name__)`), so
`str.format` raises `IndexError` first: the caller sees an `IndexError`
that does not carry the requested key, not the documented
aggregation-empty error. -/
theorem aggregation_empty_format_bug :
    get_same_pipelines [sensorOne] (.str "Y") = .error .formatIndexError ∧
    Exc.formatIndexError.pyClass = .indexError ∧
    Exc.formatIndexError ≠ .notFoundAnySightLine (.str "Y") := by
  refine ⟨rfl, rfl, ?_⟩
  intro h
  cases h

/-- A scalar pipeline also named "X", conflicting in variant with `pipeX3`. -/
def pipeXm : Pipeline := ⟨.power, some "X", false, false, none⟩

/-- A sensor whose "X" pipeline is a scalar variant. -/
def sensorMono : SightLine := ⟨some "mono", [pipeXm]⟩

/-- C7: whenever at least one sensor yields a match, `_get_same_pipelines`
raises the type-conflict `ValueError` naming the item if the matched
pipelines carry more than one distinct concrete class, and otherwise
returns the two parallel lists (matched pipelines, their owning sensors),
of equal length, in group order. -/
theorem aggregate_same_type_spec (g : List SightLine) (item : PKey)
    (h : g.filterMap (fun s => (get_pipeline s item).toOption) ≠ []) :
    (get_same_pipelines g item =
      if (((g.filterMap (fun s => (get_pipeline s item).toOption)).map
            Pipeline.cls).dedup).length > 1 then
        .error (.differentTypes item)
      else
        .ok (g.filterMap (fun s => (get_pipeline s item).toOption),
             g.filter (fun s => ((get_pipeline s item).toOption).isSome))) ∧
    (g.filterMap (fun s => (get_pipeline s item).toOption)).length =
      (g.filter (fun s => ((get_pipeline s item).toOption).isSome)).length := by
  have hi : item ≠ PKey.other := by
    rintro rfl
    apply h
    rw [List.filterMap_eq_nil_iff]
    intro s hs
    rfl
  have hc := collectPipelines_eq item hi g
  refine ⟨?_, length_filterMap_eq_filter _ _⟩
  have hlen : ¬ (g.filterMap (fun s => (get_pipeline s item).toOption)).length = 0 := by
    rw [List.length_eq_zero]
    exact h
  simp only [get_same_pipelines, hc, if_neg hlen]

/-- Witness for C7: the spec's conflict scenario (same name "X", one
SpectralRadiance and one Power pipeline) raises the conflict error; a
homogeneous group returns the parallel lists. -/
theorem aggregate_same_type_spec_witness :
    get_same_pipelines [sensorOne, sensorMono] (.str "X") =
      .error (.differentTypes (.str "X")) ∧
    get_same_pipelines [sensorAmb, sensorOne] (.str "X") =
      .ok ([pipeX3], [sensorOne]) := by
  constructor
  · have h := (aggregate_same_type_spec [sensorOne, sensorMono] (.str "X")
      (by decide)).1
    rw [h]
    rfl
  · have h := (aggregate_same_type_spec [sensorAmb, sensorOne] (.str "X")
      (by decide)).1
    rw [h]
    rfl

/-- C5: when every entry of the spec list is a supported variant, connect
replaces the sensor's pipeline list wholesale with one pipeline per entry in
the same order; each constructed pipeline carries the entry's variant and
name and `accumulate = false`; spectral entries get no filter (a supplied
filter is ignored) while scalar entries get the supplied filter; a spec
list containing any unsupported variant raises the unsupported-variant
`ValueError`. -/
theorem connect_pipelines_spec (s : SightLine) (specs : List PipeSpec) :
    ((∀ spec ∈ specs, spec.cls ≠ PipeClass.unsupported) →
      connect_pipelines s specs =
        ({ s with pipelines := specs.map specToPipeline }, none) ∧
      (specs.map specToPipeline).length = specs.length ∧
      ∀ spec ∈ specs,
        (specToPipeline spec).cls = spec.cls ∧
        (specToPipeline spec).name = spec.name ∧
        (specToPipeline spec).accumulate = false ∧
        ((spec.cls = PipeClass.spectralRadiance ∨
            spec.cls = PipeClass.spectralPower) →
          (specToPipeline spec).filter = none) ∧
        ((spec.cls = PipeClass.radiance ∨ spec.cls = PipeClass.power) →
          (specToPipeline spec).filter = spec.filter)) ∧
    ((∃ spec ∈ specs, spec.cls = PipeClass.unsupported) →
      connect_pipelines s specs = (s, some .unsupportedPipelineClass)) := by
  constructor
  · intro h
    refine ⟨?_, List.length_map _ _, fun spec hs => ?_⟩
    · rw [connect_pipelines, buildPipelines_ok specs h]
    · have hcls := h spec hs
      cases hc : spec.cls with
      | spectralRadiance => simp [specToPipeline, hc]
      | spectralPower => simp [specToPipeline, hc]
      | radiance => simp [specToPipeline, hc]
      | power => simp [specToPipeline, hc]
      | unsupported => exact absurd hc hcls
  · intro h
    rw [connect_pipelines, buildPipelines_error specs h]

/-- Witness for C5: a two-entry spec list (a spectral entry with a supplied
filter, a scalar entry with a filter) builds two pipelines in order, the
spectral one dropping the filter; a list with an unsupported entry errors. -/
theorem connect_pipelines_spec_witness :
    connect_pipelines sensorOne
        [⟨.spectralPower, some "Halpha", some 7⟩,
         ⟨.radiance, some "R", some 3⟩] =
      (⟨some "one",
        [⟨.spectralPower, some "Halpha", false, false, none⟩,
         ⟨.radiance, some "R", false, false, some 3⟩]⟩, none) ∧
    connect_pipelines sensorOne [⟨.unsupported, none, none⟩] =
      (sensorOne, some .unsupportedPipelineClass) := by
  constructor
  · exact ((connect_pipelines_spec sensorOne
      [⟨.spectralPower, some "Halpha", some 7⟩,
       ⟨.radiance, some "R", some 3⟩]).1 (by decide)).1
  · exact (connect_pipelines_spec sensorOne
      [⟨.unsupported, none, none⟩]).2
      ⟨⟨PipeClass.unsupported, none, none⟩, by simp, rfl⟩

/-- C10: if any entry of the spec list has an unsupported variant tag, the
`ValueError` is raised before the sensor's pipeline list is reassigned: the
sensor state returned next to the exception is exactly the input sensor,
its previously attached pipelines unchanged. -/
theorem connect_error_preserves_pipelines (s : SightLine)
    (specs : List PipeSpec)
    (h : ∃ spec ∈ specs, spec.cls = PipeClass.unsupported) :
    connect_pipelines s specs = (s, some .unsupportedPipelineClass) ∧
    (connect_pipelines s specs).1.pipelines = s.pipelines := by
  have hb := buildPipelines_error specs h
  rw [connect_pipelines, hb]
  exact ⟨rfl, rfl⟩

/-- Witness for C10: a spec list whose second entry is unsupported (the
first is valid) leaves the sensor's previously attached pipelines exactly
in place. -/
theorem connect_error_preserves_pipelines_witness :
    connect_pipelines sensorAB
        [⟨.spectralRadiance, some "ok", none⟩, ⟨.unsupported, none, none⟩] =
      (sensorAB, some .unsupportedPipelineClass) ∧
    (connect_pipelines sensorAB
        [⟨.spectralRadiance, some "ok", none⟩,
         ⟨.unsupported, none, none⟩]).1.pipelines = [pipeHa, pipeHb] := by
  have h := connect_error_preserves_pipelines sensorAB
    [⟨.spectralRadiance, some "ok", none⟩, ⟨.unsupported, none, none⟩]
    ⟨⟨.unsupported, none, none⟩, by simp, rfl⟩
  exact ⟨h.1, h.2⟩

/-- C9: on every successful aggregation (the matched pipeline list is
nonempty) the chart title of `plot_total_signal` / `plot_spectra` follows
the specified rule: an integer item uses the pipelines' shared name when
they all carry one identical non-empty name and the generic
"pipeline item" label otherwise, and a string item is used verbatim. -/
theorem plot_title_spec (gname : Option String) (item : PKey)
    (ps : List Pipeline) (h : ps ≠ []) :
    plotTitle gname item ps = claimedTitle gname item ps := by
  cases item with
  | str s => rfl
  | other => rfl
  | int i =>
    cases ps with
    | nil => exact absurd rfl h
    | cons p rest =>
      have hh : (p :: rest).head?.bind Pipeline.name = p.name := by simp
      by_cases hc : ∃ s, p.name = some s ∧ s ≠ "" ∧ ∀ q ∈ rest, q.name = some s
      · obtain ⟨s, hps, hs, hall⟩ := hc
        have h1 : (some s :: rest.map Pipeline.name).dedup.length = 1 := by
          apply (dedup_length_one_iff (by simp)).mpr
          refine ⟨some s, fun b hb => ?_⟩
          rcases List.mem_cons.mp hb with rfl | hmem
          · rfl
          · rw [List.mem_map] at hmem
            obtain ⟨q, hq, rfl⟩ := hmem
            exact hall q hq
        simp [plotTitle, claimedTitle, h1, hh, hps, truthyName, hs, hall,
          pyStrOpt]
        rw [if_pos hall]
      · cases hpn : p.name with
        | none => simp [plotTitle, claimedTitle, hpn, truthyName]
        | some s =>
          have hcond1 : ¬((some s :: rest.map Pipeline.name).dedup.length = 1 ∧
              truthyName (some s) = true) := by
            rintro ⟨h1, h2⟩
            have hs : s ≠ "" := by simpa [truthyName] using h2
            apply hc
            refine ⟨s, hpn, hs, fun q hq => ?_⟩
            obtain ⟨c, hcall⟩ := (dedup_length_one_iff
              (show some s :: rest.map Pipeline.name ≠ [] by simp)).mp h1
            have hsc : some s = c := hcall (some s) (by simp)
            have hqc : q.name = c := hcall q.name (by
              refine List.mem_cons.mpr (Or.inr ?_)
              rw [List.mem_map]
              exact ⟨q, hq, rfl⟩)
            rw [hqc, ← hsc]
          have hcond2 : ¬(¬s = "" ∧ ∀ x ∈ rest, x.name = some s) := by
            rintro ⟨hs, hall⟩
            exact hc ⟨s, hpn, hs, hall⟩
          simp [plotTitle, claimedTitle, hpn, hcond1, hcond2]

/-- Witness for C9 at concrete pipeline lists: two pipelines sharing the
non-empty name "X" title with that name; two differently-named pipelines
fall back to the generic label; a string item titles verbatim. -/
theorem plot_title_spec_witness :
    plotTitle (some "G") (.int 0) [pipeX1, pipeX2] = some "G: X" ∧
    plotTitle (some "G") (.int 0) [pipeHa, pipeHb] =
      some "G: pipeline 0" ∧
    plotTitle (some "G") (.str "foo") [pipeHa] = some "G: foo" := by
  refine ⟨?_, ?_, ?_⟩
  · rw [plot_title_spec (some "G") (.int 0) [pipeX1, pipeX2] (by decide)]
    rfl
  · rw [plot_title_spec (some "G") (.int 0) [pipeHa, pipeHb] (by decide)]
    rfl
  · rw [plot_title_spec (some "G") (.str "foo") [pipeHa] (by decide)]
    rfl

/-- C8 counterexample: direction `(0, 0, −1)` is not the canonical up axis,
so the setter selects the canonical up `(0, 0, 1)` — but the two are
anti-parallel, their cross product is the zero vector, and the resulting
look-basis is degenerate, contradicting the claim that every direction
yields a non-degenerate basis. -/
theorem direction_antiparallel_degenerate_counterexample :
    upFor ⟨0, 0, -1⟩ = ⟨0, 0, 1⟩ ∧
    (setDirection obs0 ⟨0, 0, -1⟩).transform =
      ⟨⟨0, 0, 0⟩, ⟨0, 0, -1⟩, ⟨0, 0, 1⟩⟩ ∧
    ¬ basisNondegenerate ⟨0, 0, -1⟩ ⟨0, 0, 1⟩ := by
  have hu : upFor (⟨0, 0, -1⟩ : Vec3) = ⟨0, 0, 1⟩ := by
    unfold upFor
    rw [if_pos]
    right
    right
    norm_num
  refine ⟨hu, ?_, ?_⟩
  · have ht : (setDirection obs0 ⟨0, 0, -1⟩).transform =
        ⟨⟨0, 0, 0⟩, ⟨0, 0, -1⟩, upFor ⟨0, 0, -1⟩⟩ := rfl
    rw [ht, hu]
  · intro hne
    apply hne
    unfold cross
    rw [Vec3.mk.injEq]
    norm_num

/-- C8 (amended): direction `(0, 0, 1)` selects the alternate reference axis
`(1, 0, 0)` and any other direction selects the canonical up axis; each
setter recomputes the transform as the translation by the current origin
together with the look-basis of the current direction, so setting one field
after the other in either order preserves both values; and the look-basis
is non-degenerate provided the direction is not a scalar multiple of the
canonical up axis other than `(0, 0, 1)` itself (a direction with
`x = y = 0` and `z ≠ 1`, such as `(0, 0, −1)`, yields a zero cross
product). -/
theorem placement_setters_spec (o : Observer0D) (v u : Vec3) :
    (v = ⟨0, 0, 1⟩ → upFor v = ⟨1, 0, 0⟩) ∧
    (v ≠ ⟨0, 0, 1⟩ → upFor v = ⟨0, 0, 1⟩) ∧
    setDirection o v = ⟨o.origin, v, ⟨o.origin, v, upFor v⟩⟩ ∧
    setOrigin o u = ⟨u, o.direction, ⟨u, o.direction, upFor o.direction⟩⟩ ∧
    setDirection (setOrigin o u) v = ⟨u, v, ⟨u, v, upFor v⟩⟩ ∧
    setOrigin (setDirection o v) u = ⟨u, v, ⟨u, v, upFor v⟩⟩ ∧
    (v.x ≠ 0 ∨ v.y ≠ 0 ∨ v = ⟨0, 0, 1⟩ →
      basisNondegenerate v (upFor v)) := by
  have hupEq : v = (⟨0, 0, 1⟩ : Vec3) → upFor v = ⟨1, 0, 0⟩ := by
    rintro rfl
    simp [upFor]
  have hupNe : v ≠ (⟨0, 0, 1⟩ : Vec3) → upFor v = ⟨0, 0, 1⟩ := by
    intro hv
    unfold upFor
    rw [if_pos]
    by_contra hcon
    push_neg at hcon
    obtain ⟨hx, hy, hz⟩ := hcon
    apply hv
    cases v
    simp_all
  refine ⟨hupEq, hupNe, rfl, rfl, rfl, rfl, ?_⟩
  rintro (hx | hy | rfl)
  · rw [hupNe (by rintro rfl; exact hx rfl)]
    unfold basisNondegenerate cross
    intro hzero
    rw [Vec3.mk.injEq] at hzero
    apply hx
    have h2 := hzero.2.1
    simp at h2
    linarith
  · rw [hupNe (by rintro rfl; exact hy rfl)]
    unfold basisNondegenerate cross
    intro hzero
    rw [Vec3.mk.injEq] at hzero
    apply hy
    have h1 := hzero.1
    simp at h1
    linarith
  · rw [hupEq rfl]
    intro hzero
    rw [show cross ⟨0, 0, 1⟩ ⟨1, 0, 0⟩ =
        (⟨0 * 0 - 1 * 0, 1 * 1 - 0 * 0, 0 * 0 - 0 * 1⟩ : Vec3) from rfl,
      Vec3.mk.injEq] at hzero
    norm_num at hzero

/-- Witness for C8 (amended): concrete checks of the up-axis choice, a
set-origin-then-set-direction sequence that keeps both values, and a
non-degenerate basis for a direction off the up axis. -/
theorem placement_setters_spec_witness :
    upFor ⟨0, 0, 1⟩ = ⟨1, 0, 0⟩ ∧
    upFor ⟨2, 0, 0⟩ = ⟨0, 0, 1⟩ ∧
    setDirection (setOrigin obs0 ⟨1, 2, 3⟩) ⟨2, 0, 0⟩ =
      ⟨⟨1, 2, 3⟩, ⟨2, 0, 0⟩, ⟨⟨1, 2, 3⟩, ⟨2, 0, 0⟩, ⟨0, 0, 1⟩⟩⟩ ∧
    basisNondegenerate ⟨2, 0, 0⟩ (upFor ⟨2, 0, 0⟩) := by
  have h1 := placement_setters_spec obs0 ⟨0, 0, 1⟩ ⟨0, 0, 0⟩
  have h2 := placement_setters_spec obs0 ⟨2, 0, 0⟩ ⟨1, 2, 3⟩
  refine ⟨h1.1 rfl, h2.2.1 (by decide), ?_, ?_⟩
  · have h3 := h2.2.2.2.2.1
    rw [h3, h2.2.1 (by decide)]
  · exact h2.2.2.2.2.2.2 (Or.inl (by decide))

end Spectroscopic
